import Mathlib

/-!
Shallow embedding of the IS31FL3235A LED driver core
(src/driver/is31fl3235a.c together with src/driver/is31fl3235a_regs.h and
src/include/is31fl3235a.h).

The driver talks to the chip through the external i2c transport
(`i2c_write_dt`) and an optional shutdown GPIO pin; both are modelled as
oracles: a function from the index of the call (counted over the life of
the instance) to whether that call succeeds.  Every attempted transaction
is recorded in a trace so theorems can speak about what the bus saw.

Machine integers: `led`/`start_channel`/`num_channels` are `uint32_t` in
the C source and are modelled as `Nat` (with explicit `% 2^32` where the C
code performs 32-bit wrap-around arithmetic, namely the range check of
`write_channels`); register values are bytes, modelled as `Nat`, with the
byte truncations of the C bit operations written out explicitly
(`&&& 0xF9` for `&= ~0x06` on `uint8_t`, `&&& 0xFE` for `&= ~BIT(0)`).
-/

namespace IS31FL3235A

/-! ### errno codes (negated on return, as in the C source) -/

/-- `-EINVAL` -/
def EINVAL : Int := -22
/-- `-EIO`, the generic transport failure propagated by the i2c layer -/
def EIO_errno : Int := -5
/-- `-ENODEV` -/
def ENODEV : Int := -19
/-- `-ENOTSUP` -/
def ENOTSUP : Int := -134

/-! ### register map constants (src/driver/is31fl3235a_regs.h) -/

def IS31FL3235A_NUM_CHANNELS : Nat := 28
def IS31FL3235A_REG_SHUTDOWN : Nat := 0x00
def IS31FL3235A_REG_PWM_BASE : Nat := 0x05
def IS31FL3235A_REG_UPDATE : Nat := 0x25
def IS31FL3235A_REG_CTRL_BASE : Nat := 0x2A
def IS31FL3235A_REG_FREQ : Nat := 0x4B
def IS31FL3235A_REG_RESET : Nat := 0x4F
def IS31FL3235A_UPDATE_TRIGGER : Nat := 0x00
def IS31FL3235A_RESET_TRIGGER : Nat := 0x00
def IS31FL3235A_SHUTDOWN_MODE : Nat := 0x00
def IS31FL3235A_SHUTDOWN_NORMAL : Nat := 0x01
def IS31FL3235A_CTRL_OUT_ENABLE : Nat := 0x01
def IS31FL3235A_CTRL_SL_SHIFT : Nat := 1
def IS31FL3235A_CTRL_SL_MASK : Nat := 0x06
def IS31FL3235A_CTRL_ENABLE_1X : Nat := 0x01
def IS31FL3235A_FREQ_3KHZ : Nat := 0x00
def IS31FL3235A_FREQ_22KHZ : Nat := 0x01
def IS31FL3235A_PWM_MAX : Nat := 0xFF
def IS31FL3235A_PWM_MIN : Nat := 0x00

def IS31FL3235A_PWM_REG (ch : Nat) : Nat := IS31FL3235A_REG_PWM_BASE + ch
def IS31FL3235A_CTRL_REG (ch : Nat) : Nat := IS31FL3235A_REG_CTRL_BASE + ch

/-! ### transport model -/

/-- One attempted i2c transaction: the raw bytes handed to `i2c_write_dt`
(first byte is the start register address) and whether the bus reported
success. -/
structure Txn where
  bytes : List Nat
  ok : Bool
  deriving DecidableEq

/-- The i2c bus as seen by one driver instance: an oracle deciding the fate
of the n-th transaction, the number of transactions attempted so far, and
the trace of everything attempted. -/
structure Bus where
  oracle : Nat → Bool
  count : Nat
  trace : List Txn

/-- A GPIO operation on the SDB pin. -/
inductive GpioOp where
  | configure_out : GpioOp
  | set_pin : Nat → GpioOp
  deriving DecidableEq

/-- The SDB GPIO as seen by one driver instance. -/
structure Gpio where
  oracle : Nat → Bool
  count : Nat
  trace : List (GpioOp × Bool)

/-- `i2c_write_dt`: attempt one transaction; the oracle decides success. -/
def i2c_write_dt (b : Bus) (bytes : List Nat) : Int × Bus :=
  let ok := b.oracle b.count
  ((if ok then 0 else EIO_errno),
   { oracle := b.oracle, count := b.count + 1,
     trace := b.trace ++ [{ bytes := bytes, ok := ok }] })

/-- `gpio_pin_configure_dt(&cfg->sdb_gpio, GPIO_OUTPUT_ACTIVE)` -/
def gpio_pin_configure_dt (g : Gpio) : Int × Gpio :=
  let ok := g.oracle g.count
  ((if ok then 0 else EIO_errno),
   { oracle := g.oracle, count := g.count + 1,
     trace := g.trace ++ [(GpioOp.configure_out, ok)] })

/-- `gpio_pin_set_dt(&cfg->sdb_gpio, v)` -/
def gpio_pin_set_dt (g : Gpio) (v : Nat) : Int × Gpio :=
  let ok := g.oracle g.count
  ((if ok then 0 else EIO_errno),
   { oracle := g.oracle, count := g.count + 1,
     trace := g.trace ++ [(GpioOp.set_pin v, ok)] })

/-! ### driver state (struct is31fl3235a_data / struct is31fl3235a_cfg) -/

/-- `struct is31fl3235a_data` (minus the mutex, which serializes callers and
has no effect on the sequential semantics modelled here). -/
structure DriverData where
  init_done : Bool
  sw_shutdown : Bool
  hw_shutdown : Bool
  pwm_cache : List Nat
  ctrl_cache : List Nat
  deriving DecidableEq

/-- `struct is31fl3235a_cfg` plus the readiness of the two collaborators
(`device_is_ready` results, fixed per instance). -/
structure Cfg where
  has_sdb_gpio : Bool
  sdb_ready : Bool
  i2c_ready : Bool
  pwm_freq_22khz : Bool
  deriving DecidableEq

/-- Full mutable world of one driver instance. -/
structure S where
  data : DriverData
  bus : Bus
  gpio : Gpio

/-! ### low-level register helpers -/

/-- `is31fl3235a_write_reg` -/
def is31fl3235a_write_reg (b : Bus) (reg value : Nat) : Int × Bus :=
  i2c_write_dt b [reg, value]

/-- `is31fl3235a_write_buffer`: the local `write_buf` is 256 bytes, so any
`len > 255` is rejected with `-EINVAL` before the bus is touched.  `memcpy`
of `len` bytes from the caller's buffer is `buf.take len`. -/
def is31fl3235a_write_buffer (b : Bus) (start_reg : Nat) (buf : List Nat)
    (len : Nat) : Int × Bus :=
  if len > 255 then (EINVAL, b)
  else i2c_write_dt b (start_reg :: buf.take len)

/-- `is31fl3235a_trigger_update` -/
def is31fl3235a_trigger_update (b : Bus) : Int × Bus :=
  is31fl3235a_write_reg b IS31FL3235A_REG_UPDATE IS31FL3235A_UPDATE_TRIGGER

/-- `memcpy(&cache[start], vals, vals.length)`: write `vals` into `l`
starting at index `start`. -/
def listSetRange : List Nat → Nat → List Nat → List Nat
  | l, _, [] => l
  | l, i, v :: vs => listSetRange (l.set i v) (i + 1) vs

/-! ### public operations (src/driver/is31fl3235a.c) -/

/-- `is31fl3235a_led_set_brightness` (`led` is `uint32_t`, `value` is
`uint8_t`): range check, PWM staging write, cache update, update trigger.
On a failed trigger the cache update already happened, exactly as in the
C control flow (`goto unlock` after the cache assignment). -/
def is31fl3235a_led_set_brightness (s : S) (led value : Nat) : Int × S :=
  if led ≥ IS31FL3235A_NUM_CHANNELS then (EINVAL, s)
  else
    let r1 := is31fl3235a_write_reg s.bus (IS31FL3235A_PWM_REG led) value
    if r1.1 < 0 then (r1.1, { s with bus := r1.2 })
    else
      let d1 := { s.data with pwm_cache := s.data.pwm_cache.set led value }
      let r2 := is31fl3235a_trigger_update r1.2
      (r2.1, { s with data := d1, bus := r2.2 })

/-- `is31fl3235a_led_write_channels` (`start_channel`, `num_channels` are
`uint32_t`): the range check `start_channel + num_channels > 28` is 32-bit
wrap-around arithmetic, hence the explicit `% 2^32`. -/
def is31fl3235a_led_write_channels (s : S) (start_channel num_channels : Nat)
    (buf : List Nat) : Int × S :=
  if start_channel ≥ IS31FL3235A_NUM_CHANNELS then (EINVAL, s)
  else if (start_channel + num_channels) % 4294967296 >
      IS31FL3235A_NUM_CHANNELS then (EINVAL, s)
  else
    let r1 := is31fl3235a_write_buffer s.bus
        (IS31FL3235A_PWM_REG start_channel) buf num_channels
    if r1.1 < 0 then (r1.1, { s with bus := r1.2 })
    else
      let d1 := { s.data with
        pwm_cache := listSetRange s.data.pwm_cache start_channel
          (buf.take num_channels) }
      let r2 := is31fl3235a_trigger_update r1.2
      (r2.1, { s with data := d1, bus := r2.2 })

/-- `is31fl3235a_led_on` -/
def is31fl3235a_led_on (s : S) (led : Nat) : Int × S :=
  is31fl3235a_led_set_brightness s led IS31FL3235A_PWM_MAX

/-- `is31fl3235a_led_off` -/
def is31fl3235a_led_off (s : S) (led : Nat) : Int × S :=
  is31fl3235a_led_set_brightness s led IS31FL3235A_PWM_MIN

/-- `is31fl3235a_set_current_scale` (`channel` is `uint8_t`, `scale` the
enum): `ctrl_val &= ~IS31FL3235A_CTRL_SL_MASK` on `uint8_t` is
`&&& 0xF9`. -/
def is31fl3235a_set_current_scale (s : S) (channel scale : Nat) : Int × S :=
  if channel ≥ IS31FL3235A_NUM_CHANNELS then (EINVAL, s)
  else if scale > 3 then (EINVAL, s)
  else
    let ctrl0 := s.data.ctrl_cache.getD channel 0
    let ctrl1 := (ctrl0 &&& 0xF9) ||| (scale <<< IS31FL3235A_CTRL_SL_SHIFT)
    let r1 := is31fl3235a_write_reg s.bus (IS31FL3235A_CTRL_REG channel) ctrl1
    if r1.1 < 0 then (r1.1, { s with bus := r1.2 })
    else
      let d1 := { s.data with
        ctrl_cache := s.data.ctrl_cache.set channel ctrl1 }
      let r2 := is31fl3235a_trigger_update r1.2
      (r2.1, { s with data := d1, bus := r2.2 })

/-- `is31fl3235a_channel_enable`: `ctrl_val &= ~IS31FL3235A_CTRL_OUT_ENABLE`
on `uint8_t` is `&&& 0xFE`. -/
def is31fl3235a_channel_enable (s : S) (channel : Nat) (enable : Bool) :
    Int × S :=
  if channel ≥ IS31FL3235A_NUM_CHANNELS then (EINVAL, s)
  else
    let ctrl0 := s.data.ctrl_cache.getD channel 0
    let ctrl1 := if enable then ctrl0 ||| IS31FL3235A_CTRL_OUT_ENABLE
                 else ctrl0 &&& 0xFE
    let r1 := is31fl3235a_write_reg s.bus (IS31FL3235A_CTRL_REG channel) ctrl1
    if r1.1 < 0 then (r1.1, { s with bus := r1.2 })
    else
      let d1 := { s.data with
        ctrl_cache := s.data.ctrl_cache.set channel ctrl1 }
      let r2 := is31fl3235a_trigger_update r1.2
      (r2.1, { s with data := d1, bus := r2.2 })

/-- `is31fl3235a_channels_enable` (`start_channel`, `num_channels` are
`uint8_t`, so the sum check is exact after integer promotion).  `ctrl_buf[i]`
combines the cached scale bits with the new enable bit. -/
def is31fl3235a_channels_enable (s : S) (start_channel num_channels : Nat)
    (enable : List Bool) : Int × S :=
  if start_channel ≥ IS31FL3235A_NUM_CHANNELS then (EINVAL, s)
  else if start_channel + num_channels > IS31FL3235A_NUM_CHANNELS then
    (EINVAL, s)
  else
    let ctrl_buf := (List.range num_channels).map (fun i =>
      let c0 := s.data.ctrl_cache.getD (start_channel + i) 0
      if enable.getD i false then c0 ||| IS31FL3235A_CTRL_OUT_ENABLE
      else c0 &&& 0xFE)
    let r1 := is31fl3235a_write_buffer s.bus
        (IS31FL3235A_CTRL_REG start_channel) ctrl_buf num_channels
    if r1.1 < 0 then (r1.1, { s with bus := r1.2 })
    else
      let d1 := { s.data with
        ctrl_cache := listSetRange s.data.ctrl_cache start_channel
          (ctrl_buf.take num_channels) }
      let r2 := is31fl3235a_trigger_update r1.2
      (r2.1, { s with data := d1, bus := r2.2 })

/-- `is31fl3235a_sw_shutdown` -/
def is31fl3235a_sw_shutdown (s : S) (shutdown : Bool) : Int × S :=
  let value := if shutdown then IS31FL3235A_SHUTDOWN_MODE
               else IS31FL3235A_SHUTDOWN_NORMAL
  let r1 := is31fl3235a_write_reg s.bus IS31FL3235A_REG_SHUTDOWN value
  if r1.1 < 0 then (r1.1, { s with bus := r1.2 })
  else (r1.1, { s with data := { s.data with sw_shutdown := shutdown },
                       bus := r1.2 })

/-- `is31fl3235a_hw_shutdown`: with no SDB pin configured the function
returns `-ENOTSUP` before taking the lock or touching anything.  The
`k_msleep` startup settle on wake has no observable effect in this model. -/
def is31fl3235a_hw_shutdown (cfg : Cfg) (s : S) (shutdown : Bool) : Int × S :=
  if !cfg.has_sdb_gpio then (ENOTSUP, s)
  else
    let r1 := gpio_pin_set_dt s.gpio (if shutdown then 0 else 1)
    if r1.1 < 0 then (r1.1, { s with gpio := r1.2 })
    else (r1.1, { s with data := { s.data with hw_shutdown := shutdown },
                         gpio := r1.2 })

/-- `is31fl3235a_update` -/
def is31fl3235a_update (s : S) : Int × S :=
  let r := is31fl3235a_trigger_update s.bus
  (r.1, { s with bus := r.2 })

/-- `is31fl3235a_set_brightness_no_update` -/
def is31fl3235a_set_brightness_no_update (s : S) (led value : Nat) : Int × S :=
  if led ≥ IS31FL3235A_NUM_CHANNELS then (EINVAL, s)
  else
    let r1 := is31fl3235a_write_reg s.bus (IS31FL3235A_PWM_REG led) value
    if r1.1 < 0 then (r1.1, { s with bus := r1.2 })
    else
      let d1 := { s.data with pwm_cache := s.data.pwm_cache.set led value }
      (r1.1, { s with data := d1, bus := r1.2 })

/-- `is31fl3235a_write_channels_no_update` -/
def is31fl3235a_write_channels_no_update (s : S)
    (start_channel num_channels : Nat) (buf : List Nat) : Int × S :=
  if start_channel ≥ IS31FL3235A_NUM_CHANNELS then (EINVAL, s)
  else if (start_channel + num_channels) % 4294967296 >
      IS31FL3235A_NUM_CHANNELS then (EINVAL, s)
  else
    let r1 := is31fl3235a_write_buffer s.bus
        (IS31FL3235A_PWM_REG start_channel) buf num_channels
    if r1.1 < 0 then (r1.1, { s with bus := r1.2 })
    else
      let d1 := { s.data with
        pwm_cache := listSetRange s.data.pwm_cache start_channel
          (buf.take num_channels) }
      (r1.1, { s with data := d1, bus := r1.2 })

/-- The per-channel loop of `is31fl3235a_init` (`for i in 0..27`): PWM
register to 0 and cache, then control register to enabled+1x and cache. -/
def is31fl3235a_init_channels (s : S) : List Nat → Int × S
  | [] => (0, s)
  | i :: rest =>
    let r1 := is31fl3235a_write_reg s.bus (IS31FL3235A_PWM_REG i) 0
    if r1.1 < 0 then (r1.1, { s with bus := r1.2 })
    else
      let s1 : S := { s with
        data := { s.data with pwm_cache := s.data.pwm_cache.set i 0 },
        bus := r1.2 }
      let r2 := is31fl3235a_write_reg s1.bus (IS31FL3235A_CTRL_REG i)
          IS31FL3235A_CTRL_ENABLE_1X
      if r2.1 < 0 then (r2.1, { s1 with bus := r2.2 })
      else
        let s2 : S := { s1 with
          data := { s1.data with
            ctrl_cache := s1.data.ctrl_cache.set i IS31FL3235A_CTRL_ENABLE_1X },
          bus := r2.2 }
        is31fl3235a_init_channels s2 rest

/-- `is31fl3235a_init` from the chip-reset write onward (straight-line
continuation shared by the with-pin and no-pin paths). -/
def is31fl3235a_init_body (cfg : Cfg) (s : S) : Int × S :=
  let r1 := is31fl3235a_write_reg s.bus IS31FL3235A_REG_RESET
      IS31FL3235A_RESET_TRIGGER
  if r1.1 < 0 then (r1.1, { s with bus := r1.2 })
  else
    let r2 := is31fl3235a_write_reg r1.2 IS31FL3235A_REG_SHUTDOWN
        IS31FL3235A_SHUTDOWN_NORMAL
    if r2.1 < 0 then (r2.1, { s with bus := r2.2 })
    else
      let s2 : S := { s with data := { s.data with sw_shutdown := false },
                             bus := r2.2 }
      let freq_val := if cfg.pwm_freq_22khz then IS31FL3235A_FREQ_22KHZ
                      else IS31FL3235A_FREQ_3KHZ
      let r3 := is31fl3235a_write_reg s2.bus IS31FL3235A_REG_FREQ freq_val
      if r3.1 < 0 then (r3.1, { s2 with bus := r3.2 })
      else
        let r4 := is31fl3235a_init_channels { s2 with bus := r3.2 }
            (List.range IS31FL3235A_NUM_CHANNELS)
        if r4.1 < 0 then r4
        else
          let s4 := r4.2
          let r5 := is31fl3235a_trigger_update s4.bus
          if r5.1 < 0 then (r5.1, { s4 with bus := r5.2 })
          else (r5.1, { s4 with
            data := { s4.data with init_done := true }, bus := r5.2 })

/-- `is31fl3235a_init`: readiness checks, optional SDB pin bring-up, then
the shared body.  (`k_mutex_init` and the settle delays are not modelled.) -/
def is31fl3235a_init (cfg : Cfg) (s : S) : Int × S :=
  if !cfg.i2c_ready then (ENODEV, s)
  else if cfg.has_sdb_gpio then
    if !cfg.sdb_ready then (ENODEV, s)
    else
      let g1 := gpio_pin_configure_dt s.gpio
      if g1.1 < 0 then (g1.1, { s with gpio := g1.2 })
      else
        let g2 := gpio_pin_set_dt g1.2 1
        if g2.1 < 0 then (g2.1, { s with gpio := g2.2 })
        else is31fl3235a_init_body cfg
          { s with data := { s.data with hw_shutdown := false }, gpio := g2.2 }
  else is31fl3235a_init_body cfg s

/-! ### observation helpers: trigger-write counting and a mock chip -/

/-- Does a transaction write any byte to the update register (0x25)?  The
first byte is the start register; byte `i` of the payload lands at
`start + i` (the chip auto-increments). -/
def txn_touches_update (t : Txn) : Bool :=
  match t.bytes with
  | [] => false
  | reg :: vs => if reg ≤ IS31FL3235A_REG_UPDATE ∧
      IS31FL3235A_REG_UPDATE < reg + vs.length then true else false

/-- Number of attempted transactions in a trace that write the update
register. -/
def count_update_writes (tr : List Txn) : Nat :=
  (tr.filter txn_touches_update).length

/-- Mock chip: double-buffered staging/applied registers.  The applied
("visible") registers change only when the update register is written. -/
structure ChipState where
  shutdown_reg : Nat
  freq_reg : Nat
  staging_pwm : List Nat
  staging_ctrl : List Nat
  applied_pwm : List Nat
  applied_ctrl : List Nat
  deriving DecidableEq

/-- Power-on defaults after a write to the reset register. -/
def chip_reset_state : ChipState :=
  { shutdown_reg := 0, freq_reg := 0,
    staging_pwm := List.replicate 28 0, staging_ctrl := List.replicate 28 0,
    applied_pwm := List.replicate 28 0, applied_ctrl := List.replicate 28 0 }

/-- Effect of one register byte on the mock chip, per the register map:
0x00 shutdown, 0x05-0x20 PWM staging, 0x25 update (copy staging to
applied), 0x2A-0x45 control staging, 0x4B frequency, 0x4F reset. -/
def chip_write_byte (c : ChipState) (reg v : Nat) : ChipState :=
  if reg = 0x00 then { c with shutdown_reg := v }
  else if 0x05 ≤ reg ∧ reg ≤ 0x20 then
    { c with staging_pwm := c.staging_pwm.set (reg - 0x05) v }
  else if reg = 0x25 then
    { c with applied_pwm := c.staging_pwm, applied_ctrl := c.staging_ctrl }
  else if 0x2A ≤ reg ∧ reg ≤ 0x45 then
    { c with staging_ctrl := c.staging_ctrl.set (reg - 0x2A) v }
  else if reg = 0x4B then { c with freq_reg := v }
  else if reg = 0x4F then chip_reset_state
  else c

/-- Effect of an auto-incrementing multi-byte write. -/
def chip_write_bytes (c : ChipState) : Nat → List Nat → ChipState
  | _, [] => c
  | start, v :: vs => chip_write_bytes (chip_write_byte c start v) (start + 1) vs

/-- A failed transaction leaves the chip untouched (the transport is
all-or-nothing per call); a successful one writes its payload. -/
def chip_apply_txn (c : ChipState) (t : Txn) : ChipState :=
  if t.ok then
    match t.bytes with
    | [] => c
    | reg :: vs => chip_write_bytes c reg vs
  else c

/-- Run a trace of transactions against the mock chip. -/
def chip_run (c : ChipState) (tr : List Txn) : ChipState :=
  tr.foldl chip_apply_txn c

/-! ### concrete sample instances (used by witnesses) -/

/-- A transport on which every transaction succeeds. -/
def oracleTrue : Nat → Bool := fun _ => true

/-- A transport on which every transaction fails. -/
def oracleFalse : Nat → Bool := fun _ => false

/-- A transport on which only the first transaction succeeds: the data
write goes through, the following update-trigger write fails. -/
def oracleFirstOnly : Nat → Bool := fun n => n == 0

/-- Post-initialization cache baseline: all brightness 0, all control
bytes enabled + full scale. -/
def sampleData : DriverData :=
  { init_done := true, sw_shutdown := false, hw_shutdown := false,
    pwm_cache := List.replicate 28 0,
    ctrl_cache := List.replicate 28 IS31FL3235A_CTRL_ENABLE_1X }

def sampleS : S :=
  { data := sampleData,
    bus := { oracle := oracleTrue, count := 0, trace := [] },
    gpio := { oracle := oracleTrue, count := 0, trace := [] } }

/-- Same instance but with a transport that always fails. -/
def failS : S :=
  { sampleS with bus := { oracle := oracleFalse, count := 0, trace := [] } }

/-- Same instance but the trigger write (second transaction) fails. -/
def trigFailS : S :=
  { sampleS with
    bus := { oracle := oracleFirstOnly, count := 0, trace := [] } }

/-- Configuration with no SDB pin. -/
def cfgNoPin : Cfg :=
  { has_sdb_gpio := false, sdb_ready := false, i2c_ready := true,
    pwm_freq_22khz := false }

/-- Configuration with an SDB pin, everything ready. -/
def cfgPin : Cfg :=
  { has_sdb_gpio := true, sdb_ready := true, i2c_ready := true,
    pwm_freq_22khz := false }

/-! ### derived byte/buffer/trace descriptions used by the lemmas below -/

/-- The control byte `channel_enable` writes: set or clear bit 0. -/
def enable_byte (c0 : Nat) (en : Bool) : Nat :=
  if en then c0 ||| IS31FL3235A_CTRL_OUT_ENABLE else c0 &&& 0xFE

/-- The control buffer `channels_enable` builds from the cache. -/
def enable_buf (d : DriverData) (st cnt : Nat) (en : List Bool) : List Nat :=
  (List.range cnt).map (fun i =>
    enable_byte (d.ctrl_cache.getD (st + i) 0) (en.getD i false))

/-- Write `v` at every index in `idxs` (the cache effect of the init loop). -/
def setEach (l : List Nat) : List Nat → Nat → List Nat
  | [], _ => l
  | i :: rest, v => setEach (l.set i v) rest v

/-- The transactions the init loop emits on a fully succeeding transport. -/
def init_txns : List Nat → List Txn
  | [] => []
  | i :: rest =>
    { bytes := [IS31FL3235A_PWM_REG i, 0], ok := true } ::
    { bytes := [IS31FL3235A_CTRL_REG i, IS31FL3235A_CTRL_ENABLE_1X],
      ok := true } :: init_txns rest

/-! ## Helper lemmas -/

theorem EIO_errno_lt : EIO_errno < 0 := by norm_num [EIO_errno]

theorem EINVAL_lt : EINVAL < 0 := by norm_num [EINVAL]

theorem zero_not_lt : ¬ ((0 : Int) < 0) := by norm_num

/-- Length is preserved by a ranged write. -/
theorem listSetRange_length (vs : List Nat) :
    ∀ l i, (listSetRange l i vs).length = l.length := by
  induction vs with
  | nil => intro l i; rfl
  | cons v vs ih =>
    intro l i
    simp only [listSetRange, ih, List.length_set]

/-- Entries outside the written window are untouched. -/
theorem listSetRange_getD_out (vs : List Nat) :
    ∀ l i j, (j < i ∨ i + vs.length ≤ j) →
      (listSetRange l i vs).getD j 0 = l.getD j 0 := by
  induction vs with
  | nil => intro l i j _; rfl
  | cons v vs ih =>
    intro l i j hj
    simp only [listSetRange]
    rw [ih (l.set i v) (i + 1) j (by simp at hj; omega)]
    have hne : i ≠ j := by simp at hj; omega
    simp [List.getD_eq_getElem?_getD, List.getElem?_set_ne hne]

/-- Entries inside the written window take the written values. -/
theorem listSetRange_getD_in (vs : List Nat) :
    ∀ l i k, k < vs.length → i + k < l.length →
      (listSetRange l i vs).getD (i + k) 0 = vs.getD k 0 := by
  induction vs with
  | nil => intro l i k hk _; simp at hk
  | cons v vs ih =>
    intro l i k hk hlen
    simp only [listSetRange]
    match k with
    | 0 =>
      rw [listSetRange_getD_out vs (l.set i v) (i + 1) (i + 0) (by omega)]
      simp [List.getD_eq_getElem?_getD,
        List.getElem?_set_eq_of_lt _ (by omega : i < l.length)]
    | k + 1 =>
      have : i + (k + 1) = (i + 1) + k := by omega
      rw [this, ih (l.set i v) (i + 1) k (by simpa using hk)
        (by simp; omega)]
      rfl

/-- A successful single-register write. -/
theorem write_reg_ok {b : Bus} (h : b.oracle b.count = true) (reg v : Nat) :
    is31fl3235a_write_reg b reg v =
      (0, { oracle := b.oracle, count := b.count + 1,
                trace := b.trace ++ [{ bytes := [reg, v], ok := true }] }) := by
  simp [is31fl3235a_write_reg, i2c_write_dt, h]

/-- A failed single-register write. -/
theorem write_reg_fail {b : Bus} (h : b.oracle b.count = false) (reg v : Nat) :
    is31fl3235a_write_reg b reg v =
      (EIO_errno, { oracle := b.oracle, count := b.count + 1,
                      trace := b.trace ++
                        [{ bytes := [reg, v], ok := false }] }) := by
  simp [is31fl3235a_write_reg, i2c_write_dt, h]

/-- A successful buffer write (length within the local buffer). -/
theorem write_buffer_ok {b : Bus} (h : b.oracle b.count = true)
    (start_reg : Nat) (buf : List Nat) (len : Nat) (hlen : len ≤ 255) :
    is31fl3235a_write_buffer b start_reg buf len =
      (0, { oracle := b.oracle, count := b.count + 1,
                trace := b.trace ++
                  [{ bytes := start_reg :: buf.take len, ok := true }] }) := by
  have : ¬ (len > 255) := by omega
  simp [is31fl3235a_write_buffer, i2c_write_dt, h, this]

/-- A failed buffer write (length within the local buffer). -/
theorem write_buffer_fail {b : Bus} (h : b.oracle b.count = false)
    (start_reg : Nat) (buf : List Nat) (len : Nat) (hlen : len ≤ 255) :
    is31fl3235a_write_buffer b start_reg buf len =
      (EIO_errno, { oracle := b.oracle, count := b.count + 1,
                      trace := b.trace ++
                        [{ bytes := start_reg :: buf.take len,
                           ok := false }] }) := by
  have : ¬ (len > 255) := by omega
  simp [is31fl3235a_write_buffer, i2c_write_dt, h, this]

/-! ### one-operation run lemmas -/

theorem set_brightness_ok (s : S) (led v : Nat)
    (h : ∀ n, s.bus.oracle n = true) (hled : led < 28) :
    is31fl3235a_led_set_brightness s led v =
      (0, { data := { s.data with pwm_cache := s.data.pwm_cache.set led v },
            bus := { oracle := s.bus.oracle, count := s.bus.count + 2,
                     trace := s.bus.trace ++
                       [{ bytes := [IS31FL3235A_PWM_REG led, v], ok := true },
                        { bytes := [IS31FL3235A_REG_UPDATE,
                                    IS31FL3235A_UPDATE_TRIGGER],
                          ok := true }] },
            gpio := s.gpio }) := by
  have h28 : ¬ (led ≥ IS31FL3235A_NUM_CHANNELS) := by
    simp [IS31FL3235A_NUM_CHANNELS]; omega
  simp [is31fl3235a_led_set_brightness, is31fl3235a_trigger_update,
    is31fl3235a_write_reg, i2c_write_dt, h, h28]

theorem set_brightness_fail1 (s : S) (led v : Nat)
    (h : s.bus.oracle s.bus.count = false) (hled : led < 28) :
    is31fl3235a_led_set_brightness s led v =
      (EIO_errno,
       { data := s.data,
         bus := { oracle := s.bus.oracle, count := s.bus.count + 1,
                  trace := s.bus.trace ++
                    [{ bytes := [IS31FL3235A_PWM_REG led, v], ok := false }] },
         gpio := s.gpio }) := by
  have h28 : ¬ (led ≥ IS31FL3235A_NUM_CHANNELS) := by
    simp [IS31FL3235A_NUM_CHANNELS]; omega
  simp [is31fl3235a_led_set_brightness, is31fl3235a_trigger_update,
    is31fl3235a_write_reg, i2c_write_dt, h, h28, EIO_errno_lt]

theorem set_brightness_fail2 (s : S) (led v : Nat)
    (h0 : s.bus.oracle s.bus.count = true)
    (h1 : s.bus.oracle (s.bus.count + 1) = false) (hled : led < 28) :
    is31fl3235a_led_set_brightness s led v =
      (EIO_errno,
       { data := { s.data with pwm_cache := s.data.pwm_cache.set led v },
         bus := { oracle := s.bus.oracle, count := s.bus.count + 2,
                  trace := s.bus.trace ++
                    [{ bytes := [IS31FL3235A_PWM_REG led, v], ok := true },
                     { bytes := [IS31FL3235A_REG_UPDATE,
                                 IS31FL3235A_UPDATE_TRIGGER],
                       ok := false }] },
         gpio := s.gpio }) := by
  have h28 : ¬ (led ≥ IS31FL3235A_NUM_CHANNELS) := by
    simp [IS31FL3235A_NUM_CHANNELS]; omega
  simp [is31fl3235a_led_set_brightness, is31fl3235a_trigger_update,
    is31fl3235a_write_reg, i2c_write_dt, h0, h1, h28, EIO_errno_lt]

theorem write_channels_ok (s : S) (st cnt : Nat) (buf : List Nat)
    (h : ∀ n, s.bus.oracle n = true) (hst : st < 28) (hsum : st + cnt ≤ 28) :
    is31fl3235a_led_write_channels s st cnt buf =
      (0, { data := { s.data with
              pwm_cache := listSetRange s.data.pwm_cache st (buf.take cnt) },
            bus := { oracle := s.bus.oracle, count := s.bus.count + 2,
                     trace := s.bus.trace ++
                       [{ bytes := IS31FL3235A_PWM_REG st :: buf.take cnt,
                          ok := true },
                        { bytes := [IS31FL3235A_REG_UPDATE,
                                    IS31FL3235A_UPDATE_TRIGGER],
                          ok := true }] },
            gpio := s.gpio }) := by
  have h28 : ¬ (st ≥ IS31FL3235A_NUM_CHANNELS) := by
    simp [IS31FL3235A_NUM_CHANNELS]; omega
  have hmod : (st + cnt) % 4294967296 = st + cnt :=
    Nat.mod_eq_of_lt (by omega)
  have hrange : ¬ ((st + cnt) % 4294967296 > IS31FL3235A_NUM_CHANNELS) := by
    rw [hmod]; simp [IS31FL3235A_NUM_CHANNELS]; omega
  have hbuf : ¬ (cnt > 255) := by omega
  simp [is31fl3235a_led_write_channels, is31fl3235a_write_buffer,
    is31fl3235a_trigger_update, is31fl3235a_write_reg, i2c_write_dt,
    h, h28, hrange, hbuf]

theorem write_channels_fail1 (s : S) (st cnt : Nat) (buf : List Nat)
    (h : s.bus.oracle s.bus.count = false) (hst : st < 28)
    (hsum : st + cnt ≤ 28) :
    is31fl3235a_led_write_channels s st cnt buf =
      (EIO_errno,
       { data := s.data,
         bus := { oracle := s.bus.oracle, count := s.bus.count + 1,
                  trace := s.bus.trace ++
                    [{ bytes := IS31FL3235A_PWM_REG st :: buf.take cnt,
                       ok := false }] },
         gpio := s.gpio }) := by
  have h28 : ¬ (st ≥ IS31FL3235A_NUM_CHANNELS) := by
    simp [IS31FL3235A_NUM_CHANNELS]; omega
  have hmod : (st + cnt) % 4294967296 = st + cnt :=
    Nat.mod_eq_of_lt (by omega)
  have hrange : ¬ ((st + cnt) % 4294967296 > IS31FL3235A_NUM_CHANNELS) := by
    rw [hmod]; simp [IS31FL3235A_NUM_CHANNELS]; omega
  have hbuf : ¬ (cnt > 255) := by omega
  simp [is31fl3235a_led_write_channels, is31fl3235a_write_buffer,
    is31fl3235a_trigger_update, is31fl3235a_write_reg, i2c_write_dt,
    h, h28, hrange, hbuf, EIO_errno_lt]

theorem write_channels_fail2 (s : S) (st cnt : Nat) (buf : List Nat)
    (h0 : s.bus.oracle s.bus.count = true)
    (h1 : s.bus.oracle (s.bus.count + 1) = false) (hst : st < 28)
    (hsum : st + cnt ≤ 28) :
    is31fl3235a_led_write_channels s st cnt buf =
      (EIO_errno,
       { data := { s.data with
           pwm_cache := listSetRange s.data.pwm_cache st (buf.take cnt) },
         bus := { oracle := s.bus.oracle, count := s.bus.count + 2,
                  trace := s.bus.trace ++
                    [{ bytes := IS31FL3235A_PWM_REG st :: buf.take cnt,
                       ok := true },
                     { bytes := [IS31FL3235A_REG_UPDATE,
                                 IS31FL3235A_UPDATE_TRIGGER],
                       ok := false }] },
         gpio := s.gpio }) := by
  have h28 : ¬ (st ≥ IS31FL3235A_NUM_CHANNELS) := by
    simp [IS31FL3235A_NUM_CHANNELS]; omega
  have hmod : (st + cnt) % 4294967296 = st + cnt :=
    Nat.mod_eq_of_lt (by omega)
  have hrange : ¬ ((st + cnt) % 4294967296 > IS31FL3235A_NUM_CHANNELS) := by
    rw [hmod]; simp [IS31FL3235A_NUM_CHANNELS]; omega
  have hbuf : ¬ (cnt > 255) := by omega
  simp [is31fl3235a_led_write_channels, is31fl3235a_write_buffer,
    is31fl3235a_trigger_update, is31fl3235a_write_reg, i2c_write_dt,
    h0, h1, h28, hrange, hbuf, EIO_errno_lt]

theorem set_current_scale_ok (s : S) (ch sc : Nat)
    (h : ∀ n, s.bus.oracle n = true) (hch : ch < 28) (hsc : sc ≤ 3) :
    is31fl3235a_set_current_scale s ch sc =
      (0, { data := { s.data with ctrl_cache := s.data.ctrl_cache.set ch ((s.data.ctrl_cache.getD ch 0 &&& 0xF9) ||| (sc <<< 1)) },
            bus := { oracle := s.bus.oracle, count := s.bus.count + 2,
                     trace := s.bus.trace ++
                       [{ bytes := [IS31FL3235A_CTRL_REG ch,
                            (s.data.ctrl_cache.getD ch 0 &&& 0xF9) |||
                              (sc <<< 1)],
                          ok := true },
                        { bytes := [IS31FL3235A_REG_UPDATE,
                                    IS31FL3235A_UPDATE_TRIGGER],
                          ok := true }] },
            gpio := s.gpio }) := by
  have h28 : ¬ (ch ≥ IS31FL3235A_NUM_CHANNELS) := by
    simp [IS31FL3235A_NUM_CHANNELS]; omega
  have hs3 : ¬ (sc > 3) := by omega
  simp [is31fl3235a_set_current_scale, is31fl3235a_trigger_update,
    is31fl3235a_write_reg, i2c_write_dt, IS31FL3235A_CTRL_SL_SHIFT,
    h, h28, hs3]

theorem set_current_scale_fail1 (s : S) (ch sc : Nat)
    (h : s.bus.oracle s.bus.count = false) (hch : ch < 28) (hsc : sc ≤ 3) :
    is31fl3235a_set_current_scale s ch sc =
      (EIO_errno,
       { data := s.data,
         bus := { oracle := s.bus.oracle, count := s.bus.count + 1,
                  trace := s.bus.trace ++
                    [{ bytes := [IS31FL3235A_CTRL_REG ch,
                         (s.data.ctrl_cache.getD ch 0 &&& 0xF9) |||
                           (sc <<< 1)],
                       ok := false }] },
         gpio := s.gpio }) := by
  have h28 : ¬ (ch ≥ IS31FL3235A_NUM_CHANNELS) := by
    simp [IS31FL3235A_NUM_CHANNELS]; omega
  have hs3 : ¬ (sc > 3) := by omega
  simp [is31fl3235a_set_current_scale, is31fl3235a_trigger_update,
    is31fl3235a_write_reg, i2c_write_dt, IS31FL3235A_CTRL_SL_SHIFT,
    h, h28, hs3, EIO_errno_lt]

theorem set_current_scale_fail2 (s : S) (ch sc : Nat)
    (h0 : s.bus.oracle s.bus.count = true)
    (h1 : s.bus.oracle (s.bus.count + 1) = false) (hch : ch < 28)
    (hsc : sc ≤ 3) :
    is31fl3235a_set_current_scale s ch sc =
      (EIO_errno,
       { data := { s.data with ctrl_cache := s.data.ctrl_cache.set ch ((s.data.ctrl_cache.getD ch 0 &&& 0xF9) ||| (sc <<< 1)) },
         bus := { oracle := s.bus.oracle, count := s.bus.count + 2,
                  trace := s.bus.trace ++
                    [{ bytes := [IS31FL3235A_CTRL_REG ch,
                         (s.data.ctrl_cache.getD ch 0 &&& 0xF9) |||
                           (sc <<< 1)],
                       ok := true },
                     { bytes := [IS31FL3235A_REG_UPDATE,
                                 IS31FL3235A_UPDATE_TRIGGER],
                       ok := false }] },
         gpio := s.gpio }) := by
  have h28 : ¬ (ch ≥ IS31FL3235A_NUM_CHANNELS) := by
    simp [IS31FL3235A_NUM_CHANNELS]; omega
  have hs3 : ¬ (sc > 3) := by omega
  simp [is31fl3235a_set_current_scale, is31fl3235a_trigger_update,
    is31fl3235a_write_reg, i2c_write_dt, IS31FL3235A_CTRL_SL_SHIFT,
    h0, h1, h28, hs3, EIO_errno_lt]

theorem channel_enable_ok (s : S) (ch : Nat) (en : Bool)
    (h : ∀ n, s.bus.oracle n = true) (hch : ch < 28) :
    is31fl3235a_channel_enable s ch en =
      (0, { data := { s.data with ctrl_cache := s.data.ctrl_cache.set ch (enable_byte (s.data.ctrl_cache.getD ch 0) en) },
            bus := { oracle := s.bus.oracle, count := s.bus.count + 2,
                     trace := s.bus.trace ++
                       [{ bytes := [IS31FL3235A_CTRL_REG ch,
                            enable_byte (s.data.ctrl_cache.getD ch 0) en],
                          ok := true },
                        { bytes := [IS31FL3235A_REG_UPDATE,
                                    IS31FL3235A_UPDATE_TRIGGER],
                          ok := true }] },
            gpio := s.gpio }) := by
  have h28 : ¬ (ch ≥ IS31FL3235A_NUM_CHANNELS) := by
    simp [IS31FL3235A_NUM_CHANNELS]; omega
  cases en <;>
    simp [is31fl3235a_channel_enable, is31fl3235a_trigger_update,
      is31fl3235a_write_reg, i2c_write_dt, enable_byte, h, h28]

theorem channel_enable_fail1 (s : S) (ch : Nat) (en : Bool)
    (h : s.bus.oracle s.bus.count = false) (hch : ch < 28) :
    is31fl3235a_channel_enable s ch en =
      (EIO_errno,
       { data := s.data,
         bus := { oracle := s.bus.oracle, count := s.bus.count + 1,
                  trace := s.bus.trace ++
                    [{ bytes := [IS31FL3235A_CTRL_REG ch,
                         enable_byte (s.data.ctrl_cache.getD ch 0) en],
                       ok := false }] },
         gpio := s.gpio }) := by
  have h28 : ¬ (ch ≥ IS31FL3235A_NUM_CHANNELS) := by
    simp [IS31FL3235A_NUM_CHANNELS]; omega
  cases en <;>
    simp [is31fl3235a_channel_enable, is31fl3235a_trigger_update,
      is31fl3235a_write_reg, i2c_write_dt, enable_byte, h, h28, EIO_errno_lt]

theorem channel_enable_fail2 (s : S) (ch : Nat) (en : Bool)
    (h0 : s.bus.oracle s.bus.count = true)
    (h1 : s.bus.oracle (s.bus.count + 1) = false) (hch : ch < 28) :
    is31fl3235a_channel_enable s ch en =
      (EIO_errno,
       { data := { s.data with ctrl_cache := s.data.ctrl_cache.set ch (enable_byte (s.data.ctrl_cache.getD ch 0) en) },
         bus := { oracle := s.bus.oracle, count := s.bus.count + 2,
                  trace := s.bus.trace ++
                    [{ bytes := [IS31FL3235A_CTRL_REG ch,
                         enable_byte (s.data.ctrl_cache.getD ch 0) en],
                       ok := true },
                     { bytes := [IS31FL3235A_REG_UPDATE,
                                 IS31FL3235A_UPDATE_TRIGGER],
                       ok := false }] },
         gpio := s.gpio }) := by
  have h28 : ¬ (ch ≥ IS31FL3235A_NUM_CHANNELS) := by
    simp [IS31FL3235A_NUM_CHANNELS]; omega
  cases en <;>
    simp [is31fl3235a_channel_enable, is31fl3235a_trigger_update,
      is31fl3235a_write_reg, i2c_write_dt, enable_byte, h0, h1, h28,
      EIO_errno_lt]

theorem take_map_range {a : Type} (f : Nat → a) (n : Nat) :
    (List.map f (List.range n)).take n = List.map f (List.range n) := by
  have h : (List.map f (List.range n)).length = n := by simp
  nth_rewrite 1 [← h]
  exact List.take_length _

theorem channels_enable_ok (s : S) (st cnt : Nat) (en : List Bool)
    (h : ∀ n, s.bus.oracle n = true) (hst : st < 28) (hsum : st + cnt ≤ 28) :
    is31fl3235a_channels_enable s st cnt en =
      (0, { data := { s.data with ctrl_cache := listSetRange s.data.ctrl_cache st (enable_buf s.data st cnt en) },
            bus := { oracle := s.bus.oracle, count := s.bus.count + 2,
                     trace := s.bus.trace ++
                       [{ bytes := IS31FL3235A_CTRL_REG st ::
                            enable_buf s.data st cnt en,
                          ok := true },
                        { bytes := [IS31FL3235A_REG_UPDATE,
                                    IS31FL3235A_UPDATE_TRIGGER],
                          ok := true }] },
            gpio := s.gpio }) := by
  have h28 : ¬ (st ≥ IS31FL3235A_NUM_CHANNELS) := by
    simp [IS31FL3235A_NUM_CHANNELS]; omega
  have hrange : ¬ (st + cnt > IS31FL3235A_NUM_CHANNELS) := by
    simp [IS31FL3235A_NUM_CHANNELS]; omega
  have hbuf : ¬ (cnt > 255) := by omega
  simp [is31fl3235a_channels_enable, is31fl3235a_write_buffer,
    is31fl3235a_trigger_update, is31fl3235a_write_reg, i2c_write_dt,
    enable_buf, enable_byte, h, h28, hrange, hbuf, take_map_range]

theorem channels_enable_fail1 (s : S) (st cnt : Nat) (en : List Bool)
    (h : s.bus.oracle s.bus.count = false) (hst : st < 28)
    (hsum : st + cnt ≤ 28) :
    is31fl3235a_channels_enable s st cnt en =
      (EIO_errno,
       { data := s.data,
         bus := { oracle := s.bus.oracle, count := s.bus.count + 1,
                  trace := s.bus.trace ++
                    [{ bytes := IS31FL3235A_CTRL_REG st ::
                         enable_buf s.data st cnt en,
                       ok := false }] },
         gpio := s.gpio }) := by
  have h28 : ¬ (st ≥ IS31FL3235A_NUM_CHANNELS) := by
    simp [IS31FL3235A_NUM_CHANNELS]; omega
  have hrange : ¬ (st + cnt > IS31FL3235A_NUM_CHANNELS) := by
    simp [IS31FL3235A_NUM_CHANNELS]; omega
  have hbuf : ¬ (cnt > 255) := by omega
  simp [is31fl3235a_channels_enable, is31fl3235a_write_buffer,
    is31fl3235a_trigger_update, is31fl3235a_write_reg, i2c_write_dt,
    enable_buf, enable_byte, h, h28, hrange, hbuf, EIO_errno_lt,
    take_map_range]

theorem channels_enable_fail2 (s : S) (st cnt : Nat) (en : List Bool)
    (h0 : s.bus.oracle s.bus.count = true)
    (h1 : s.bus.oracle (s.bus.count + 1) = false) (hst : st < 28)
    (hsum : st + cnt ≤ 28) :
    is31fl3235a_channels_enable s st cnt en =
      (EIO_errno,
       { data := { s.data with ctrl_cache := listSetRange s.data.ctrl_cache st (enable_buf s.data st cnt en) },
         bus := { oracle := s.bus.oracle, count := s.bus.count + 2,
                  trace := s.bus.trace ++
                    [{ bytes := IS31FL3235A_CTRL_REG st ::
                         enable_buf s.data st cnt en,
                       ok := true },
                     { bytes := [IS31FL3235A_REG_UPDATE,
                                 IS31FL3235A_UPDATE_TRIGGER],
                       ok := false }] },
         gpio := s.gpio }) := by
  have h28 : ¬ (st ≥ IS31FL3235A_NUM_CHANNELS) := by
    simp [IS31FL3235A_NUM_CHANNELS]; omega
  have hrange : ¬ (st + cnt > IS31FL3235A_NUM_CHANNELS) := by
    simp [IS31FL3235A_NUM_CHANNELS]; omega
  have hbuf : ¬ (cnt > 255) := by omega
  simp [is31fl3235a_channels_enable, is31fl3235a_write_buffer,
    is31fl3235a_trigger_update, is31fl3235a_write_reg, i2c_write_dt,
    enable_buf, enable_byte, h0, h1, h28, hrange, hbuf, EIO_errno_lt,
    take_map_range]

theorem sw_shutdown_ok (s : S) (sd : Bool)
    (h : s.bus.oracle s.bus.count = true) :
    is31fl3235a_sw_shutdown s sd =
      (0, { data := { s.data with sw_shutdown := sd },
            bus := { oracle := s.bus.oracle, count := s.bus.count + 1,
                     trace := s.bus.trace ++
                       [{ bytes := [IS31FL3235A_REG_SHUTDOWN,
                            if sd then IS31FL3235A_SHUTDOWN_MODE
                            else IS31FL3235A_SHUTDOWN_NORMAL],
                          ok := true }] },
            gpio := s.gpio }) := by
  cases sd <;>
    simp [is31fl3235a_sw_shutdown, is31fl3235a_write_reg, i2c_write_dt, h]

theorem sw_shutdown_fail (s : S) (sd : Bool)
    (h : s.bus.oracle s.bus.count = false) :
    is31fl3235a_sw_shutdown s sd =
      (EIO_errno,
       { data := s.data,
         bus := { oracle := s.bus.oracle, count := s.bus.count + 1,
                  trace := s.bus.trace ++
                    [{ bytes := [IS31FL3235A_REG_SHUTDOWN,
                         if sd then IS31FL3235A_SHUTDOWN_MODE
                         else IS31FL3235A_SHUTDOWN_NORMAL],
                       ok := false }] },
         gpio := s.gpio }) := by
  cases sd <;>
    simp [is31fl3235a_sw_shutdown, is31fl3235a_write_reg, i2c_write_dt, h,
      EIO_errno_lt]

theorem update_ok (s : S) (h : s.bus.oracle s.bus.count = true) :
    is31fl3235a_update s =
      (0, { data := s.data,
            bus := { oracle := s.bus.oracle, count := s.bus.count + 1,
                     trace := s.bus.trace ++
                       [{ bytes := [IS31FL3235A_REG_UPDATE,
                            IS31FL3235A_UPDATE_TRIGGER],
                          ok := true }] },
            gpio := s.gpio }) := by
  simp [is31fl3235a_update, is31fl3235a_trigger_update,
    is31fl3235a_write_reg, i2c_write_dt, h]

theorem set_brightness_no_update_ok (s : S) (led v : Nat)
    (h : s.bus.oracle s.bus.count = true) (hled : led < 28) :
    is31fl3235a_set_brightness_no_update s led v =
      (0, { data := { s.data with pwm_cache := s.data.pwm_cache.set led v },
            bus := { oracle := s.bus.oracle, count := s.bus.count + 1,
                     trace := s.bus.trace ++
                       [{ bytes := [IS31FL3235A_PWM_REG led, v],
                          ok := true }] },
            gpio := s.gpio }) := by
  have h28 : ¬ (led ≥ IS31FL3235A_NUM_CHANNELS) := by
    simp [IS31FL3235A_NUM_CHANNELS]; omega
  simp [is31fl3235a_set_brightness_no_update, is31fl3235a_write_reg,
    i2c_write_dt, h, h28]

theorem set_brightness_no_update_fail (s : S) (led v : Nat)
    (h : s.bus.oracle s.bus.count = false) (hled : led < 28) :
    is31fl3235a_set_brightness_no_update s led v =
      (EIO_errno,
       { data := s.data,
         bus := { oracle := s.bus.oracle, count := s.bus.count + 1,
                  trace := s.bus.trace ++
                    [{ bytes := [IS31FL3235A_PWM_REG led, v],
                       ok := false }] },
         gpio := s.gpio }) := by
  have h28 : ¬ (led ≥ IS31FL3235A_NUM_CHANNELS) := by
    simp [IS31FL3235A_NUM_CHANNELS]; omega
  simp [is31fl3235a_set_brightness_no_update, is31fl3235a_write_reg,
    i2c_write_dt, h, h28, EIO_errno_lt]

theorem write_channels_no_update_fail (s : S) (st cnt : Nat) (buf : List Nat)
    (h : s.bus.oracle s.bus.count = false) (hst : st < 28)
    (hsum : st + cnt ≤ 28) :
    is31fl3235a_write_channels_no_update s st cnt buf =
      (EIO_errno,
       { data := s.data,
         bus := { oracle := s.bus.oracle, count := s.bus.count + 1,
                  trace := s.bus.trace ++
                    [{ bytes := IS31FL3235A_PWM_REG st :: buf.take cnt,
                       ok := false }] },
         gpio := s.gpio }) := by
  have h28 : ¬ (st ≥ IS31FL3235A_NUM_CHANNELS) := by
    simp [IS31FL3235A_NUM_CHANNELS]; omega
  have hmod : (st + cnt) % 4294967296 = st + cnt :=
    Nat.mod_eq_of_lt (by omega)
  have hrange : ¬ ((st + cnt) % 4294967296 > IS31FL3235A_NUM_CHANNELS) := by
    rw [hmod]; simp [IS31FL3235A_NUM_CHANNELS]; omega
  have hbuf : ¬ (cnt > 255) := by omega
  simp [is31fl3235a_write_channels_no_update, is31fl3235a_write_buffer,
    i2c_write_dt, h, h28, hrange, hbuf, EIO_errno_lt]

theorem setEach_length : ∀ (idxs : List Nat) (l : List Nat) (v : Nat),
    (setEach l idxs v).length = l.length := by
  intro idxs
  induction idxs with
  | nil => intro l v; rfl
  | cons i rest ih => intro l v; simp only [setEach, ih, List.length_set]

theorem setEach_getD_not_mem : ∀ (idxs : List Nat) (l : List Nat) (v j : Nat),
    j ∉ idxs → (setEach l idxs v).getD j 0 = l.getD j 0 := by
  intro idxs
  induction idxs with
  | nil => intro l v j _; rfl
  | cons i rest ih =>
    intro l v j hj
    simp only [List.mem_cons, not_or] at hj
    simp only [setEach]
    rw [ih (l.set i v) v j hj.2]
    have hne : i ≠ j := fun he => hj.1 he.symm
    simp [List.getD_eq_getElem?_getD, List.getElem?_set_ne hne]

theorem setEach_getD_mem : ∀ (idxs : List Nat) (l : List Nat) (v j : Nat),
    j ∈ idxs → j < l.length → (setEach l idxs v).getD j 0 = v := by
  intro idxs
  induction idxs with
  | nil => intro l v j hj _; simp at hj
  | cons i rest ih =>
    intro l v j hj hlen
    simp only [setEach]
    by_cases hr : j ∈ rest
    · exact ih (l.set i v) v j hr (by simpa using hlen)
    · have hij : j = i := by
        rcases List.mem_cons.mp hj with h | h
        · exact h
        · exact absurd h hr
      subst hij
      rw [setEach_getD_not_mem rest (l.set j v) v j hr]
      simp [List.getD_eq_getElem?_getD, List.getElem?_set_eq_of_lt _ hlen]

/-- Exact behaviour of the init per-channel loop on a fully succeeding
transport: return 0, both caches written at every visited index, two
transactions per channel appended, GPIO and flags untouched. -/
theorem init_channels_run : ∀ (chans : List Nat) (s : S),
    (∀ n, s.bus.oracle n = true) →
    is31fl3235a_init_channels s chans =
      (0, { data := { s.data with
              pwm_cache := setEach s.data.pwm_cache chans 0,
              ctrl_cache := setEach s.data.ctrl_cache chans
                IS31FL3235A_CTRL_ENABLE_1X },
            bus := { oracle := s.bus.oracle,
                     count := s.bus.count + 2 * chans.length,
                     trace := s.bus.trace ++ init_txns chans },
            gpio := s.gpio }) := by
  intro chans
  induction chans with
  | nil =>
    intro s h
    simp [is31fl3235a_init_channels, setEach, init_txns]
  | cons i rest ih =>
    intro s h
    have step : is31fl3235a_init_channels s (i :: rest) =
        is31fl3235a_init_channels
          { data := { s.data with
              pwm_cache := s.data.pwm_cache.set i 0,
              ctrl_cache := s.data.ctrl_cache.set i
                IS31FL3235A_CTRL_ENABLE_1X },
            bus := { oracle := s.bus.oracle, count := s.bus.count + 2,
                     trace := s.bus.trace ++
                       [{ bytes := [IS31FL3235A_PWM_REG i, 0], ok := true },
                        { bytes := [IS31FL3235A_CTRL_REG i,
                            IS31FL3235A_CTRL_ENABLE_1X], ok := true }] },
            gpio := s.gpio } rest := by
      simp [is31fl3235a_init_channels, is31fl3235a_write_reg, i2c_write_dt, h]
    rw [step, ih]
    · simp only [setEach, init_txns, List.length_cons, Prod.mk.injEq]
      simp [List.append_assoc]
      omega
    · exact fun n => h n

/-- Exact behaviour of `is31fl3235a_init_body` on a fully succeeding
transport. -/
theorem init_body_run (cfg : Cfg) (s : S) (h : ∀ n, s.bus.oracle n = true) :
    is31fl3235a_init_body cfg s =
      (0, { data := { init_done := true, sw_shutdown := false,
                      hw_shutdown := s.data.hw_shutdown,
                      pwm_cache := setEach s.data.pwm_cache (List.range 28) 0,
                      ctrl_cache := setEach s.data.ctrl_cache (List.range 28)
                        IS31FL3235A_CTRL_ENABLE_1X },
            bus := { oracle := s.bus.oracle, count := s.bus.count + 60,
                     trace := s.bus.trace ++
                       ({ bytes := [IS31FL3235A_REG_RESET,
                            IS31FL3235A_RESET_TRIGGER], ok := true } ::
                        { bytes := [IS31FL3235A_REG_SHUTDOWN,
                            IS31FL3235A_SHUTDOWN_NORMAL], ok := true } ::
                        { bytes := [IS31FL3235A_REG_FREQ,
                            if cfg.pwm_freq_22khz then IS31FL3235A_FREQ_22KHZ
                            else IS31FL3235A_FREQ_3KHZ], ok := true } ::
                        (init_txns (List.range 28) ++
                         [{ bytes := [IS31FL3235A_REG_UPDATE,
                              IS31FL3235A_UPDATE_TRIGGER], ok := true }])) },
            gpio := s.gpio }) := by
  simp [is31fl3235a_init_body, is31fl3235a_write_reg,
    is31fl3235a_trigger_update, i2c_write_dt, h, init_channels_run,
    List.append_assoc, IS31FL3235A_NUM_CHANNELS]

/-- `getD` at the written index. -/
theorem getD_set_self (l : List Nat) (i v : Nat) (h : i < l.length) :
    (l.set i v).getD i 0 = v := by
  simp [List.getD_eq_getElem?_getD, List.getElem?_set_eq_of_lt _ h]

/-- A successful PWM-register transaction only changes PWM staging. -/
theorem chip_apply_pwm_txn (c : ChipState) (led v : Nat) (hled : led < 28) :
    chip_apply_txn c
        { bytes := [IS31FL3235A_PWM_REG led, v], ok := true } =
      { c with staging_pwm := c.staging_pwm.set led v } := by
  have h0 : ¬ (IS31FL3235A_PWM_REG led = 0x00) := by
    simp [IS31FL3235A_PWM_REG, IS31FL3235A_REG_PWM_BASE]
  have h1 : 0x05 ≤ IS31FL3235A_PWM_REG led ∧ IS31FL3235A_PWM_REG led ≤ 0x20 := by
    simp [IS31FL3235A_PWM_REG, IS31FL3235A_REG_PWM_BASE]; omega
  simp [chip_apply_txn, chip_write_bytes, chip_write_byte, h0, h1,
    IS31FL3235A_PWM_REG, IS31FL3235A_REG_PWM_BASE]
  intro h2
  exact absurd h2 (by omega)

/-- A successful update-register transaction copies staging to applied. -/
theorem chip_apply_update_txn (c : ChipState) :
    chip_apply_txn c
        { bytes := [IS31FL3235A_REG_UPDATE, IS31FL3235A_UPDATE_TRIGGER],
          ok := true } =
      { c with applied_pwm := c.staging_pwm,
               applied_ctrl := c.staging_ctrl } := by
  simp [chip_apply_txn, chip_write_bytes, chip_write_byte,
    IS31FL3235A_REG_UPDATE, IS31FL3235A_UPDATE_TRIGGER]

/-- Shared rejection fact for `write_channels` and its no-update variant:
whenever the exact (unbounded) sum exceeds 28, both return `-EINVAL`
without touching the transport or any state, even when the 32-bit wrapped
sum passes the range check (the buffer-write helper then rejects the
oversized length before the bus transaction). -/
theorem write_channels_reject (s : S) (st cnt : Nat) (buf : List Nat)
    (hst : st < 4294967296) (hcnt : cnt < 4294967296)
    (hsum : 28 < st + cnt) :
    is31fl3235a_led_write_channels s st cnt buf = (EINVAL, s) ∧
    is31fl3235a_write_channels_no_update s st cnt buf = (EINVAL, s) := by
  by_cases h1 : st ≥ 28
  · constructor <;>
      simp [is31fl3235a_led_write_channels,
        is31fl3235a_write_channels_no_update, IS31FL3235A_NUM_CHANNELS, h1]
  · by_cases h2 : (st + cnt) % 4294967296 > 28
    · constructor <;>
        simp [is31fl3235a_led_write_channels,
          is31fl3235a_write_channels_no_update, IS31FL3235A_NUM_CHANNELS,
          h1, h2]
    · have hcnt255 : cnt > 255 := by omega
      constructor <;>
        simp [is31fl3235a_led_write_channels,
          is31fl3235a_write_channels_no_update, is31fl3235a_write_buffer,
          IS31FL3235A_NUM_CHANNELS, h1, h2, hcnt255, EINVAL_lt]

set_option maxRecDepth 10000 in
/-- Bit-level facts about the control-byte read-modify-write patterns, for
all byte values and scale codes.  `x &&& 254` is the disable write,
`x ||| 1` the enable write, `(x &&& 249) ||| (sc <<< 1)` the scale write. -/
theorem ctrl_bits : ∀ x < 256, ∀ sc < 4,
    ((((x &&& 254) &&& 249) ||| (sc <<< 1)) ||| 1) &&& 1 = 1 ∧
    (((((x &&& 254) &&& 249) ||| (sc <<< 1)) ||| 1) &&& 6) >>> 1 = sc ∧
    (x &&& 254) &&& 6 = x &&& 6 ∧
    (x &&& 254) >>> 3 = x >>> 3 ∧
    (x ||| 1) &&& 6 = x &&& 6 ∧
    (x ||| 1) >>> 3 = x >>> 3 ∧
    ((x &&& 249) ||| (sc <<< 1)) &&& 1 = x &&& 1 ∧
    ((x &&& 249) ||| (sc <<< 1)) >>> 3 = x >>> 3 := by decide

/-! ## Claim theorems -/

/-- Claim C2: for every start and count (as 32-bit values), `write_channels`
and `write_channels_no_update` return `-EINVAL` whenever the exact,
unbounded sum `start + count` exceeds 28, with no transport access and no
side effect on any state (the result state is exactly the input state). -/
theorem spec_C2_range_reject (s : S) (st cnt : Nat) (buf : List Nat)
    (hst : st < 4294967296) (hcnt : cnt < 4294967296)
    (hsum : 28 < st + cnt) :
    is31fl3235a_led_write_channels s st cnt buf = (EINVAL, s) ∧
    is31fl3235a_write_channels_no_update s st cnt buf = (EINVAL, s) :=
  write_channels_reject s st cnt buf hst hcnt hsum

/-- Witness for C2 at a concrete over-long range. -/
theorem spec_C2_witness :
    (5 : Nat) < 4294967296 ∧ (24 : Nat) < 4294967296 ∧ (28 : Nat) < 5 + 24 ∧
    is31fl3235a_led_write_channels sampleS 5 24 [] = (EINVAL, sampleS) :=
  ⟨by norm_num, by norm_num, by norm_num,
   (spec_C2_range_reject sampleS 5 24 [] (by norm_num) (by norm_num)
     (by norm_num)).1⟩

/-- Claim C10: when the 32-bit sum `start + count` wraps to a value that
passes the range check although the exact sum exceeds 28, both
`write_channels` and `write_channels_no_update` still return an error with
no bus transaction and no cache modification (the oversized length is
rejected by the buffer-write helper before the transport is touched). -/
theorem spec_C10_wrap_safe (s : S) (st cnt : Nat) (buf : List Nat)
    (hst : st < 28) (hcnt : cnt < 4294967296)
    (hwrap : (st + cnt) % 4294967296 ≤ 28) (hsum : 28 < st + cnt) :
    is31fl3235a_led_write_channels s st cnt buf = (EINVAL, s) ∧
    is31fl3235a_write_channels_no_update s st cnt buf = (EINVAL, s) :=
  write_channels_reject s st cnt buf (by omega) hcnt hsum

/-- Witness for C10 at the wrap-around input `start = 1`,
`count = 4294967295` (32-bit sum wraps to 0, which passes the check). -/
theorem spec_C10_witness :
    (1 + 4294967295) % 4294967296 ≤ 28 ∧ (28 : Nat) < 1 + 4294967295 ∧
    is31fl3235a_led_write_channels sampleS 1 4294967295 [] =
      (EINVAL, sampleS) ∧
    is31fl3235a_write_channels_no_update sampleS 1 4294967295 [] =
      (EINVAL, sampleS) := by
  refine ⟨by norm_num, by norm_num, ?_, ?_⟩
  · exact (spec_C10_wrap_safe sampleS 1 4294967295 [] (by norm_num)
      (by norm_num) (by norm_num) (by norm_num)).1
  · exact (spec_C10_wrap_safe sampleS 1 4294967295 [] (by norm_num)
      (by norm_num) (by norm_num) (by norm_num)).2

/-- Claim C3: `set_brightness(i, v)` is rejected with `-EINVAL` exactly when
`i ≥ 28`, the rejection leaves the whole state (cache and bus) untouched;
for `i < 28` the operation proceeds to the transport, its first transaction
being the PWM data write for channel `i`. -/
theorem spec_C3_brightness_range (s : S) (i v : Nat) :
    (28 ≤ i → is31fl3235a_led_set_brightness s i v = (EINVAL, s)) ∧
    (i < 28 → ∃ rest, (is31fl3235a_led_set_brightness s i v).2.bus.trace =
      s.bus.trace ++ ({ bytes := [IS31FL3235A_PWM_REG i, v],
                        ok := s.bus.oracle s.bus.count } :: rest)) := by
  constructor
  · intro h28
    have h : i ≥ IS31FL3235A_NUM_CHANNELS := by
      simp [IS31FL3235A_NUM_CHANNELS]; omega
    simp [is31fl3235a_led_set_brightness, h]
  · intro hlt
    have h28 : ¬ (i ≥ IS31FL3235A_NUM_CHANNELS) := by
      simp [IS31FL3235A_NUM_CHANNELS]; omega
    cases ho : s.bus.oracle s.bus.count
    · refine ⟨[], ?_⟩
      rw [set_brightness_fail1 s i v ho hlt]
    · refine ⟨[{ bytes := [IS31FL3235A_REG_UPDATE, IS31FL3235A_UPDATE_TRIGGER],
                 ok := s.bus.oracle (s.bus.count + 1) }], ?_⟩
      simp [is31fl3235a_led_set_brightness, is31fl3235a_write_reg,
        is31fl3235a_trigger_update, i2c_write_dt, ho, h28]

/-- Witness for C3 at the out-of-range indices 28 and 4294967295 and the
in-range index 0. -/
theorem spec_C3_witness :
    is31fl3235a_led_set_brightness sampleS 28 7 = (EINVAL, sampleS) ∧
    is31fl3235a_led_set_brightness sampleS 4294967295 7 = (EINVAL, sampleS) ∧
    ∃ rest, (is31fl3235a_led_set_brightness sampleS 0 7).2.bus.trace =
      sampleS.bus.trace ++ ({ bytes := [IS31FL3235A_PWM_REG 0, 7],
                              ok := sampleS.bus.oracle sampleS.bus.count } ::
        rest) :=
  ⟨(spec_C3_brightness_range sampleS 28 7).1 (by norm_num),
   (spec_C3_brightness_range sampleS 4294967295 7).1 (by norm_num),
   (spec_C3_brightness_range sampleS 0 7).2 (by norm_num)⟩

/-- Claim C7: on an instance with no shutdown pin, `hw_shutdown(b)` returns
`-ENOTSUP` for every `b` leaving the whole state untouched, and
`sw_shutdown(b)` never modifies the `hw_shutdown` flag. -/
theorem spec_C7_shutdown_independence (cfg : Cfg) (s : S) (b : Bool) :
    (cfg.has_sdb_gpio = false →
      is31fl3235a_hw_shutdown cfg s b = (ENOTSUP, s)) ∧
    (is31fl3235a_sw_shutdown s b).2.data.hw_shutdown = s.data.hw_shutdown := by
  constructor
  · intro hpin
    simp [is31fl3235a_hw_shutdown, hpin]
  · cases ho : s.bus.oracle s.bus.count
    · rw [sw_shutdown_fail s b ho]
    · rw [sw_shutdown_ok s b ho]

/-- Witness for C7 on the concrete pinless configuration. -/
theorem spec_C7_witness :
    cfgNoPin.has_sdb_gpio = false ∧
    is31fl3235a_hw_shutdown cfgNoPin sampleS true = (ENOTSUP, sampleS) ∧
    (is31fl3235a_sw_shutdown sampleS true).2.data.hw_shutdown =
      sampleS.data.hw_shutdown :=
  ⟨rfl, (spec_C7_shutdown_independence cfgNoPin sampleS true).1 rfl,
   (spec_C7_shutdown_independence cfgNoPin sampleS true).2⟩

/-- Claim C9: `on(led)` is definitionally the same call as
`set_brightness(led, 255)` and `off(led)` the same as
`set_brightness(led, 0)`: equal result value, equal final state (cache and
transport trace included). -/
theorem spec_C9_on_off (s : S) (led : Nat) :
    is31fl3235a_led_on s led = is31fl3235a_led_set_brightness s led 255 ∧
    is31fl3235a_led_off s led = is31fl3235a_led_set_brightness s led 0 :=
  ⟨rfl, rfl⟩

/-- Claim C8: after a successful mutation the cache equals exactly what was
written: `set_brightness(c, v)` yields `pwm_cache[c] = v` with every other
channel and the whole control cache unchanged; `write_channels(start,
count, values)` yields `pwm_cache[start+k] = values[k]` for `k < count`
with all channels outside the range and the control cache unchanged. -/
theorem spec_C8_cache_fidelity :
    (∀ (s : S) (c v : Nat), (∀ n, s.bus.oracle n = true) → c < 28 →
      s.data.pwm_cache.length = 28 →
      (is31fl3235a_led_set_brightness s c v).1 = 0 ∧
      (is31fl3235a_led_set_brightness s c v).2.data.pwm_cache.getD c 0 = v ∧
      (∀ j, j ≠ c →
        (is31fl3235a_led_set_brightness s c v).2.data.pwm_cache.getD j 0 =
          s.data.pwm_cache.getD j 0) ∧
      (is31fl3235a_led_set_brightness s c v).2.data.ctrl_cache =
        s.data.ctrl_cache) ∧
    (∀ (s : S) (st cnt : Nat) (buf : List Nat),
      (∀ n, s.bus.oracle n = true) → st < 28 → st + cnt ≤ 28 →
      buf.length = cnt → s.data.pwm_cache.length = 28 →
      (is31fl3235a_led_write_channels s st cnt buf).1 = 0 ∧
      (∀ k, k < cnt →
        (is31fl3235a_led_write_channels s st cnt buf).2.data.pwm_cache.getD
          (st + k) 0 = buf.getD k 0) ∧
      (∀ j, j < st ∨ st + cnt ≤ j →
        (is31fl3235a_led_write_channels s st cnt buf).2.data.pwm_cache.getD
          j 0 = s.data.pwm_cache.getD j 0) ∧
      (is31fl3235a_led_write_channels s st cnt buf).2.data.ctrl_cache =
        s.data.ctrl_cache) := by
  constructor
  · intro s c v h hc hlen
    rw [set_brightness_ok s c v h hc]
    refine ⟨rfl, ?_, ?_, rfl⟩
    · exact getD_set_self _ _ _ (by omega)
    · intro j hj
      have hne : c ≠ j := fun he => hj he.symm
      simp [List.getD_eq_getElem?_getD, List.getElem?_set_ne hne]
  · intro s st cnt buf h hst hsum hbuf hlen
    rw [write_channels_ok s st cnt buf h hst hsum]
    subst hbuf
    rw [List.take_length]
    refine ⟨rfl, ?_, ?_, rfl⟩
    · intro k hk
      exact listSetRange_getD_in buf s.data.pwm_cache st k hk (by omega)
    · intro j hj
      exact listSetRange_getD_out buf s.data.pwm_cache st j (by omega)

/-- Witness for C8 at `set_brightness(5, 200)` on the baseline instance. -/
theorem spec_C8_witness :
    (is31fl3235a_led_set_brightness sampleS 5 200).1 = 0 ∧
    (is31fl3235a_led_set_brightness sampleS 5 200).2.data.pwm_cache.getD
      5 0 = 200 ∧
    (is31fl3235a_led_set_brightness sampleS 5 200).2.data.pwm_cache.getD
      4 0 = sampleS.data.pwm_cache.getD 4 0 ∧
    (is31fl3235a_led_set_brightness sampleS 5 200).2.data.ctrl_cache =
      sampleS.data.ctrl_cache :=
  ⟨(spec_C8_cache_fidelity.1 sampleS 5 200 (fun n => rfl) (by norm_num)
      (by norm_num [sampleS, sampleData])).1,
   (spec_C8_cache_fidelity.1 sampleS 5 200 (fun n => rfl) (by norm_num)
      (by norm_num [sampleS, sampleData])).2.1,
   (spec_C8_cache_fidelity.1 sampleS 5 200 (fun n => rfl) (by norm_num)
      (by norm_num [sampleS, sampleData])).2.2.1 4 (by norm_num),
   (spec_C8_cache_fidelity.1 sampleS 5 200 (fun n => rfl) (by norm_num)
      (by norm_num [sampleS, sampleData])).2.2.2⟩

/-- Counterexample to claim C1 as stated: with a transport whose first
transaction (the PWM data write) succeeds and whose second (the
update-trigger write) fails, `set_brightness(3, 77)` returns the transport
error yet `pwm_cache[3]` has changed from 0 to 77 — the cache is not
"exactly as it was before the call". -/
theorem spec_C1_counterexample :
    (is31fl3235a_led_set_brightness trigFailS 3 77).1 = EIO_errno ∧
    (is31fl3235a_led_set_brightness trigFailS 3 77).2.data.pwm_cache.getD
      3 0 = 77 ∧
    trigFailS.data.pwm_cache.getD 3 0 = 0 := by decide

/-- Claim C1 (amended): if a channel-mutating operation returns
TransportError, the caches reflect exactly the register writes that
succeeded before the failure: when the data write itself fails, both
caches are exactly as before the call; when the data write succeeds and
only the subsequent update-trigger write fails, the staged data is in the
cache (everything else unchanged) and the error is still returned. -/
theorem spec_C1_cache_on_transport_error :
    (∀ (s : S) (led v : Nat), led < 28 →
      s.bus.oracle s.bus.count = false →
      (is31fl3235a_led_set_brightness s led v).1 = EIO_errno ∧
      (is31fl3235a_led_set_brightness s led v).2.data = s.data) ∧
    (∀ (s : S) (led v : Nat), led < 28 →
      s.bus.oracle s.bus.count = true →
      s.bus.oracle (s.bus.count + 1) = false →
      (is31fl3235a_led_set_brightness s led v).1 = EIO_errno ∧
      (is31fl3235a_led_set_brightness s led v).2.data =
        { s.data with pwm_cache := s.data.pwm_cache.set led v }) ∧
    (∀ (s : S) (st cnt : Nat) (buf : List Nat), st < 28 → st + cnt ≤ 28 →
      s.bus.oracle s.bus.count = false →
      (is31fl3235a_led_write_channels s st cnt buf).1 = EIO_errno ∧
      (is31fl3235a_led_write_channels s st cnt buf).2.data = s.data) ∧
    (∀ (s : S) (st cnt : Nat) (buf : List Nat), st < 28 → st + cnt ≤ 28 →
      s.bus.oracle s.bus.count = true →
      s.bus.oracle (s.bus.count + 1) = false →
      (is31fl3235a_led_write_channels s st cnt buf).1 = EIO_errno ∧
      (is31fl3235a_led_write_channels s st cnt buf).2.data =
        { s.data with pwm_cache :=
            listSetRange s.data.pwm_cache st (buf.take cnt) }) ∧
    (∀ (s : S) (ch sc : Nat), ch < 28 → sc ≤ 3 →
      s.bus.oracle s.bus.count = false →
      (is31fl3235a_set_current_scale s ch sc).1 = EIO_errno ∧
      (is31fl3235a_set_current_scale s ch sc).2.data = s.data) ∧
    (∀ (s : S) (ch sc : Nat), ch < 28 → sc ≤ 3 →
      s.bus.oracle s.bus.count = true →
      s.bus.oracle (s.bus.count + 1) = false →
      (is31fl3235a_set_current_scale s ch sc).1 = EIO_errno ∧
      (is31fl3235a_set_current_scale s ch sc).2.data =
        { s.data with ctrl_cache := s.data.ctrl_cache.set ch ((s.data.ctrl_cache.getD ch 0 &&& 0xF9) ||| (sc <<< 1)) }) ∧
    (∀ (s : S) (ch : Nat) (en : Bool), ch < 28 →
      s.bus.oracle s.bus.count = false →
      (is31fl3235a_channel_enable s ch en).1 = EIO_errno ∧
      (is31fl3235a_channel_enable s ch en).2.data = s.data) ∧
    (∀ (s : S) (ch : Nat) (en : Bool), ch < 28 →
      s.bus.oracle s.bus.count = true →
      s.bus.oracle (s.bus.count + 1) = false →
      (is31fl3235a_channel_enable s ch en).1 = EIO_errno ∧
      (is31fl3235a_channel_enable s ch en).2.data =
        { s.data with ctrl_cache := s.data.ctrl_cache.set ch (enable_byte (s.data.ctrl_cache.getD ch 0) en) }) ∧
    (∀ (s : S) (st cnt : Nat) (en : List Bool), st < 28 → st + cnt ≤ 28 →
      s.bus.oracle s.bus.count = false →
      (is31fl3235a_channels_enable s st cnt en).1 = EIO_errno ∧
      (is31fl3235a_channels_enable s st cnt en).2.data = s.data) ∧
    (∀ (s : S) (st cnt : Nat) (en : List Bool), st < 28 → st + cnt ≤ 28 →
      s.bus.oracle s.bus.count = true →
      s.bus.oracle (s.bus.count + 1) = false →
      (is31fl3235a_channels_enable s st cnt en).1 = EIO_errno ∧
      (is31fl3235a_channels_enable s st cnt en).2.data =
        { s.data with ctrl_cache :=
            listSetRange s.data.ctrl_cache st (enable_buf s.data st cnt en) }) ∧
    (∀ (s : S) (led v : Nat), led < 28 →
      s.bus.oracle s.bus.count = false →
      (is31fl3235a_set_brightness_no_update s led v).1 = EIO_errno ∧
      (is31fl3235a_set_brightness_no_update s led v).2.data = s.data) ∧
    (∀ (s : S) (st cnt : Nat) (buf : List Nat), st < 28 → st + cnt ≤ 28 →
      s.bus.oracle s.bus.count = false →
      (is31fl3235a_write_channels_no_update s st cnt buf).1 = EIO_errno ∧
      (is31fl3235a_write_channels_no_update s st cnt buf).2.data =
        s.data) := by
  refine ⟨?_, ?_, ?_, ?_, ?_, ?_, ?_, ?_, ?_, ?_, ?_, ?_⟩
  · intro s led v hled ho
    rw [set_brightness_fail1 s led v ho hled]
    exact ⟨rfl, rfl⟩
  · intro s led v hled h0 h1
    rw [set_brightness_fail2 s led v h0 h1 hled]
    exact ⟨rfl, rfl⟩
  · intro s st cnt buf hst hsum ho
    rw [write_channels_fail1 s st cnt buf ho hst hsum]
    exact ⟨rfl, rfl⟩
  · intro s st cnt buf hst hsum h0 h1
    rw [write_channels_fail2 s st cnt buf h0 h1 hst hsum]
    exact ⟨rfl, rfl⟩
  · intro s ch sc hch hsc ho
    rw [set_current_scale_fail1 s ch sc ho hch hsc]
    exact ⟨rfl, rfl⟩
  · intro s ch sc hch hsc h0 h1
    rw [set_current_scale_fail2 s ch sc h0 h1 hch hsc]
    exact ⟨rfl, rfl⟩
  · intro s ch en hch ho
    rw [channel_enable_fail1 s ch en ho hch]
    exact ⟨rfl, rfl⟩
  · intro s ch en hch h0 h1
    rw [channel_enable_fail2 s ch en h0 h1 hch]
    exact ⟨rfl, rfl⟩
  · intro s st cnt en hst hsum ho
    rw [channels_enable_fail1 s st cnt en ho hst hsum]
    exact ⟨rfl, rfl⟩
  · intro s st cnt en hst hsum h0 h1
    rw [channels_enable_fail2 s st cnt en h0 h1 hst hsum]
    exact ⟨rfl, rfl⟩
  · intro s led v hled ho
    rw [set_brightness_no_update_fail s led v ho hled]
    exact ⟨rfl, rfl⟩
  · intro s st cnt buf hst hsum ho
    rw [write_channels_no_update_fail s st cnt buf ho hst hsum]
    exact ⟨rfl, rfl⟩

/-- Witness for the amended C1: a concrete failed data write leaves the
caches untouched, and a concrete failed trigger write after a successful
data write leaves exactly the staged value in the cache. -/
theorem spec_C1_witness :
    ((is31fl3235a_led_set_brightness failS 3 9).1 = EIO_errno ∧
     (is31fl3235a_led_set_brightness failS 3 9).2.data = failS.data) ∧
    ((is31fl3235a_led_set_brightness trigFailS 3 9).1 = EIO_errno ∧
     (is31fl3235a_led_set_brightness trigFailS 3 9).2.data =
       { trigFailS.data with
           pwm_cache := trigFailS.data.pwm_cache.set 3 9 }) :=
  ⟨spec_C1_cache_on_transport_error.1 failS 3 9 (by norm_num) rfl,
   spec_C1_cache_on_transport_error.2.1 trigFailS 3 9 (by norm_num) rfl rfl⟩

/-- Claim C4: `channel_enable` modifies only bit 0 of the channel's control
byte (scale field and reserved bits preserved), `set_current_scale`
modifies only bits 1-2 (enable bit and reserved bits preserved), and the
sequence disable, set scale, enable on a succeeding transport leaves the
cached control byte with enable = 1 and scale = the requested code. -/
theorem spec_C4_scale_enable_independence (s : S) (c sc : Nat)
    (h : ∀ n, s.bus.oracle n = true) (hc : c < 28) (hsc : sc ≤ 3)
    (hlen : s.data.ctrl_cache.length = 28)
    (hbyte : s.data.ctrl_cache.getD c 0 < 256) :
    (∀ en : Bool,
      (is31fl3235a_channel_enable s c en).2.data.ctrl_cache.getD c 0 &&& 6 =
        s.data.ctrl_cache.getD c 0 &&& 6 ∧
      (is31fl3235a_channel_enable s c en).2.data.ctrl_cache.getD c 0 >>> 3 =
        s.data.ctrl_cache.getD c 0 >>> 3) ∧
    ((is31fl3235a_set_current_scale s c sc).2.data.ctrl_cache.getD c 0 &&&
        1 = s.data.ctrl_cache.getD c 0 &&& 1 ∧
     (is31fl3235a_set_current_scale s c sc).2.data.ctrl_cache.getD c 0 >>>
        3 = s.data.ctrl_cache.getD c 0 >>> 3) ∧
    ((is31fl3235a_channel_enable (is31fl3235a_set_current_scale
        (is31fl3235a_channel_enable s c false).2 c sc).2 c
        true).2.data.ctrl_cache.getD c 0 &&& 1 = 1 ∧
     ((is31fl3235a_channel_enable (is31fl3235a_set_current_scale
        (is31fl3235a_channel_enable s c false).2 c sc).2 c
        true).2.data.ctrl_cache.getD c 0 &&& 6) >>> 1 = sc) := by
  obtain ⟨b1, b2, b3, b4, b5, b6, b7, b8⟩ :=
    ctrl_bits (s.data.ctrl_cache.getD c 0) hbyte sc (by omega)
  refine ⟨?_, ?_, ?_⟩
  · intro en
    rw [channel_enable_ok s c en h hc]
    cases en <;>
      simp only [enable_byte, if_true, if_false, Bool.false_eq_true,
        ite_false, ite_true] <;>
      rw [getD_set_self _ _ _ (by omega)]
    · exact ⟨b3, b4⟩
    · exact ⟨b5, b6⟩
  · rw [set_current_scale_ok s c sc h hc hsc]
    rw [getD_set_self _ _ _ (by omega)]
    exact ⟨b7, b8⟩
  · rw [channel_enable_ok s c false h hc]
    rw [set_current_scale_ok]
    · rw [channel_enable_ok]
      · simp [enable_byte, getD_set_self, hlen, hc,
          IS31FL3235A_CTRL_OUT_ENABLE]
        simpa [hlen, hc] using b2
      · exact h
      · exact hc
    · exact h
    · exact hc
    · exact hsc

/-- Witness for C4: the scale/enable sequence of the spec's example,
channel 3, scale HALF = 1, on the baseline instance. -/
theorem spec_C4_witness :
    (is31fl3235a_channel_enable (is31fl3235a_set_current_scale
        (is31fl3235a_channel_enable sampleS 3 false).2 3 1).2 3
        true).2.data.ctrl_cache.getD 3 0 &&& 1 = 1 ∧
    ((is31fl3235a_channel_enable (is31fl3235a_set_current_scale
        (is31fl3235a_channel_enable sampleS 3 false).2 3 1).2 3
        true).2.data.ctrl_cache.getD 3 0 &&& 6) >>> 1 = 1 :=
  (spec_C4_scale_enable_independence sampleS 3 1 (fun n => rfl)
    (by norm_num) (by norm_num) (by decide) (by decide)).2.2

/-- Setting every index of `List.range 28` in a 28-element list yields a
constant list. -/
theorem setEach_range_eq_replicate (l : List Nat) (v : Nat)
    (hl : l.length = 28) :
    setEach l (List.range 28) v = List.replicate 28 v := by
  have hlen : (setEach l (List.range 28) v).length = 28 := by
    rw [setEach_length, hl]
  apply List.ext_getElem?
  intro n
  by_cases hn : n < 28
  · have hnl : n < (setEach l (List.range 28) v).length := by omega
    have hv := setEach_getD_mem (List.range 28) l v n
      (List.mem_range.mpr hn) (by omega)
    rw [List.getD_eq_getElem _ _ hnl] at hv
    rw [List.getElem?_replicate, if_pos hn, List.getElem?_eq_getElem hnl, hv]
  · rw [List.getElem?_replicate, if_neg hn, List.getElem?_eq_none]
    omega

/-- The init loop writes no byte to the update register. -/
theorem init_txns_no_update : ∀ chans : List Nat, (∀ i ∈ chans, i < 28) →
    (init_txns chans).filter txn_touches_update = [] := by
  intro chans
  induction chans with
  | nil => intro _; rfl
  | cons i rest ih =>
    intro hmem
    have hi : i < 28 := hmem i (List.mem_cons_self i rest)
    have t1 : txn_touches_update
        { bytes := [IS31FL3235A_PWM_REG i, 0], ok := true } = false := by
      simp only [txn_touches_update, IS31FL3235A_PWM_REG,
        IS31FL3235A_REG_PWM_BASE, IS31FL3235A_REG_UPDATE, List.length_cons,
        List.length_nil, ite_eq_right_iff]
      intro hcon
      exact absurd hcon (by omega)
    have t2 : txn_touches_update
        { bytes := [IS31FL3235A_CTRL_REG i, IS31FL3235A_CTRL_ENABLE_1X],
          ok := true } = false := by
      simp only [txn_touches_update, IS31FL3235A_CTRL_REG,
        IS31FL3235A_REG_CTRL_BASE, IS31FL3235A_REG_UPDATE, List.length_cons,
        List.length_nil, ite_eq_right_iff]
      intro hcon
      exact absurd hcon (by omega)
    simp [init_txns, List.filter_cons, t1, t2,
      ih (fun j hj => hmem j (List.mem_cons_of_mem _ hj))]

set_option maxHeartbeats 2000000 in
/-- Claim C5: after `init` succeeds on a ready instance with a fully
succeeding transport and pin, every channel's cached brightness is 0 and
cached control byte is enabled + full scale, `sw_shutdown` is cleared, the
instance is marked initialized, and exactly one write to the
update-trigger register occurred in the whole sequence. -/
theorem spec_C5_init_baseline (cfg : Cfg) (s : S)
    (hbus : ∀ n, s.bus.oracle n = true)
    (hgpio : ∀ n, s.gpio.oracle n = true)
    (hi2c : cfg.i2c_ready = true)
    (hsdb : cfg.has_sdb_gpio = true → cfg.sdb_ready = true)
    (hpl : s.data.pwm_cache.length = 28)
    (hcl : s.data.ctrl_cache.length = 28)
    (htr : s.bus.trace = []) :
    (is31fl3235a_init cfg s).1 = 0 ∧
    (∀ i, i < 28 → (is31fl3235a_init cfg s).2.data.pwm_cache.getD i 0 = 0) ∧
    (∀ i, i < 28 → (is31fl3235a_init cfg s).2.data.ctrl_cache.getD i 0 =
      IS31FL3235A_CTRL_ENABLE_1X) ∧
    (is31fl3235a_init cfg s).2.data.sw_shutdown = false ∧
    (is31fl3235a_init cfg s).2.data.init_done = true ∧
    count_update_writes (is31fl3235a_init cfg s).2.bus.trace = 1 := by
  have hft := init_txns_no_update (List.range 28)
    (fun j hj => List.mem_range.mp hj)
  cases hpin : cfg.has_sdb_gpio
  · have hred : is31fl3235a_init cfg s = is31fl3235a_init_body cfg s := by
      simp [is31fl3235a_init, hi2c, hpin]
    rw [hred, init_body_run cfg s hbus,
      setEach_range_eq_replicate s.data.pwm_cache 0 hpl,
      setEach_range_eq_replicate s.data.ctrl_cache _ hcl]
    refine ⟨rfl, ?_, ?_, rfl, rfl, ?_⟩
    · intro i hi
      simp only [List.getD_eq_getElem?_getD, List.getElem?_replicate, hi,
        if_true, Option.getD_some]
    · intro i hi
      simp only [List.getD_eq_getElem?_getD, List.getElem?_replicate, hi,
        if_true, Option.getD_some]
    · cases hf : cfg.pwm_freq_22khz <;>
        simp [htr, hf, count_update_writes, List.filter_append,
          List.filter_cons, hft, txn_touches_update,
          IS31FL3235A_REG_RESET, IS31FL3235A_RESET_TRIGGER,
          IS31FL3235A_REG_SHUTDOWN, IS31FL3235A_SHUTDOWN_NORMAL,
          IS31FL3235A_REG_FREQ, IS31FL3235A_FREQ_22KHZ,
          IS31FL3235A_FREQ_3KHZ, IS31FL3235A_REG_UPDATE,
          IS31FL3235A_UPDATE_TRIGGER]
  · have hred : is31fl3235a_init cfg s = is31fl3235a_init_body cfg
        { s with data := { s.data with hw_shutdown := false },
                 gpio := { oracle := s.gpio.oracle,
                           count := s.gpio.count + 2,
                           trace := s.gpio.trace ++
                             [(GpioOp.configure_out, true),
                              (GpioOp.set_pin 1, true)] } } := by
      simp [is31fl3235a_init, hi2c, hpin, hsdb hpin,
        gpio_pin_configure_dt, gpio_pin_set_dt, hgpio, List.append_assoc]
    rw [hred, init_body_run,
      setEach_range_eq_replicate s.data.pwm_cache 0 hpl,
      setEach_range_eq_replicate s.data.ctrl_cache _ hcl]
    · refine ⟨rfl, ?_, ?_, rfl, rfl, ?_⟩
      · intro i hi
        simp only [List.getD_eq_getElem?_getD, List.getElem?_replicate, hi,
          if_true, Option.getD_some]
      · intro i hi
        simp only [List.getD_eq_getElem?_getD, List.getElem?_replicate, hi,
          if_true, Option.getD_some]
      · cases hf : cfg.pwm_freq_22khz <;>
          simp [htr, hf, count_update_writes, List.filter_append,
            List.filter_cons, hft, txn_touches_update,
            IS31FL3235A_REG_RESET, IS31FL3235A_RESET_TRIGGER,
            IS31FL3235A_REG_SHUTDOWN, IS31FL3235A_SHUTDOWN_NORMAL,
            IS31FL3235A_REG_FREQ, IS31FL3235A_FREQ_22KHZ,
            IS31FL3235A_FREQ_3KHZ, IS31FL3235A_REG_UPDATE,
            IS31FL3235A_UPDATE_TRIGGER]
    · exact hbus

set_option maxHeartbeats 2000000 in
/-- Witness for C5 on the concrete pinless configuration and baseline
instance. -/
theorem spec_C5_witness :
    (is31fl3235a_init cfgNoPin sampleS).1 = 0 ∧
    (is31fl3235a_init cfgNoPin sampleS).2.data.init_done = true ∧
    count_update_writes (is31fl3235a_init cfgNoPin sampleS).2.bus.trace = 1 :=
  ⟨(spec_C5_init_baseline cfgNoPin sampleS (fun n => rfl) (fun n => rfl)
      rfl (fun hh => absurd hh (by decide)) (by decide) (by decide) rfl).1,
   (spec_C5_init_baseline cfgNoPin sampleS (fun n => rfl) (fun n => rfl)
      rfl (fun hh => absurd hh (by decide)) (by decide) (by decide)
      rfl).2.2.2.2.1,
   (spec_C5_init_baseline cfgNoPin sampleS (fun n => rfl) (fun n => rfl)
      rfl (fun hh => absurd hh (by decide)) (by decide) (by decide)
      rfl).2.2.2.2.2⟩

/-- Claim C6: on a fresh trace, `set_brightness_no_update(led, v)` with a
succeeding transport stages `v` (cache updated) but issues no write to the
update-trigger register, so the applied/visible output of the mock chip is
unchanged; a following `update()` issues exactly that single trigger
write, after which the applied PWM state equals the staged state. -/
theorem spec_C6_no_update_deferral (s : S) (led v : Nat)
    (h : ∀ n, s.bus.oracle n = true) (hled : led < 28)
    (htr : s.bus.trace = []) :
    (is31fl3235a_set_brightness_no_update s led v).1 = 0 ∧
    (is31fl3235a_set_brightness_no_update s led v).2.data.pwm_cache =
      s.data.pwm_cache.set led v ∧
    count_update_writes
      (is31fl3235a_set_brightness_no_update s led v).2.bus.trace = 0 ∧
    (∀ c : ChipState,
      (chip_run c
        (is31fl3235a_set_brightness_no_update s led v).2.bus.trace).applied_pwm
        = c.applied_pwm ∧
      (chip_run c
        (is31fl3235a_set_brightness_no_update s led v).2.bus.trace).applied_ctrl
        = c.applied_ctrl) ∧
    (is31fl3235a_update
      (is31fl3235a_set_brightness_no_update s led v).2).1 = 0 ∧
    count_update_writes (is31fl3235a_update
      (is31fl3235a_set_brightness_no_update s led v).2).2.bus.trace = 1 ∧
    (∀ c : ChipState,
      (chip_run c (is31fl3235a_update
        (is31fl3235a_set_brightness_no_update s led v).2).2.bus.trace).applied_pwm
        = c.staging_pwm.set led v) := by
  rw [set_brightness_no_update_ok s led v (h s.bus.count) hled]
  have htouch : txn_touches_update
      { bytes := [IS31FL3235A_PWM_REG led, v], ok := true } = false := by
    simp only [txn_touches_update, IS31FL3235A_PWM_REG,
      IS31FL3235A_REG_PWM_BASE, IS31FL3235A_REG_UPDATE, List.length_cons,
      List.length_nil]
    simp only [ite_eq_right_iff]
    intro hcon
    exact absurd hcon (by omega)
  rw [update_ok _ (h (s.bus.count + 1))]
  refine ⟨rfl, rfl, ?_, ?_, rfl, ?_, ?_⟩
  · simp [count_update_writes, htr, htouch]
  · intro c
    simp only [htr, List.nil_append, chip_run, List.foldl_cons,
      List.foldl_nil]
    rw [chip_apply_pwm_txn c led v hled]
    exact ⟨rfl, rfl⟩
  · have htouch2 : txn_touches_update { bytes := [37, 0], ok := true } =
        true := by decide
    simp [count_update_writes, htr, htouch, htouch2,
      IS31FL3235A_REG_UPDATE, IS31FL3235A_UPDATE_TRIGGER]
  · intro c
    simp only [htr, List.nil_append, List.append_assoc, List.cons_append,
      List.nil_append, chip_run, List.foldl_cons, List.foldl_nil]
    rw [chip_apply_pwm_txn c led v hled]
    rw [chip_apply_update_txn]

/-- Witness for C6: the spec's example, channel 0 staged to 100. -/
theorem spec_C6_witness :
    (is31fl3235a_set_brightness_no_update sampleS 0 100).1 = 0 ∧
    count_update_writes
      (is31fl3235a_set_brightness_no_update sampleS 0 100).2.bus.trace = 0 ∧
    count_update_writes (is31fl3235a_update
      (is31fl3235a_set_brightness_no_update sampleS 0 100).2).2.bus.trace
      = 1 :=
  ⟨(spec_C6_no_update_deferral sampleS 0 100 (fun n => rfl) (by norm_num)
      rfl).1,
   (spec_C6_no_update_deferral sampleS 0 100 (fun n => rfl) (by norm_num)
      rfl).2.2.1,
   (spec_C6_no_update_deferral sampleS 0 100 (fun n => rfl) (by norm_num)
      rfl).2.2.2.2.2.1⟩

end IS31FL3235A
